import Mathlib

/-!
Shallow embedding of `liblight/lights.c` from the motorola titan device tree:
a lights HAL that drives an LCD backlight and a single RGB indicator LED
(shared by the notification and attention channels) through two sysfs files.

Machine integers are modelled as `Nat` (the C `color` field is `unsigned int`;
every arithmetic intermediate here is non-negative and far below 2^31, so no
overflow or masking beyond the source's own `&` masks occurs) and as `Int`
for signed quantities (flash durations, result codes).  The outcome of the
`open(2)`/`write(2)` system calls is modelled by an explicit environment
`SysfsEnv` supplied to each operation; the byte payload handed to the sysfs
writer is returned alongside the C result code so that theorems can speak
about what was written.
-/

/-- `struct light_state_t` (from `hardware/lights.h`): the request every
operation receives.  `color` is a 32-bit ARGB word, `flashMode` the flash-mode
enum value, `flashOnMS`/`flashOffMS` the blink durations. -/
structure LightState where
  color : Nat
  flashMode : Int
  flashOnMS : Int
  flashOffMS : Int
  deriving Repr, DecidableEq

/-- `LIGHT_FLASH_NONE` from `hardware/lights.h`. -/
def LIGHT_FLASH_NONE : Int := 0

/-- `LIGHT_FLASH_TIMED` from `hardware/lights.h`. -/
def LIGHT_FLASH_TIMED : Int := 1

/-- `LIGHT_FLASH_HARDWARE` from `hardware/lights.h`. -/
def LIGHT_FLASH_HARDWARE : Int := 2

/-- `#define LED_LIGHT_OFF 0` (lights.c line 30). -/
def LED_LIGHT_OFF : Nat := 0

/-- `#define LED_LIGHT_ON 255` (lights.c line 31). -/
def LED_LIGHT_ON : Nat := 255

/-- `LCD_FILE` (lights.c lines 37-38). -/
def LCD_FILE : String := "/sys/class/leds/lcd-backlight/brightness"

/-- `RGB_CONTROL_FILE` (lights.c lines 40-41). -/
def RGB_CONTROL_FILE : String := "/sys/class/leds/rgb/control"

/-- Outcome of the two system calls a single sysfs write performs:
whether `open(2)` succeeds, the `errno` it would leave on failure, the
return value of `write(2)` (`-1` on failure), and the `errno` of a failed
write.  One write per operation occurs in this module, so one record
describes a call's I/O environment. -/
structure SysfsEnv where
  openOk : Bool
  openErrno : Int
  writeAmt : Int
  writeErrno : Int
  deriving Repr, DecidableEq

/-- `write_int` (lights.c lines 53-73): open `path`, format the value as
`"<value>\n"`, write, close.  Returns the pair of the C return code
(`0` on success, `-errno` when the open or the write fails; a short write
with `amt != -1` is success) and the buffer handed to `write(2)`
(`none` when the open failed and no write was attempted). -/
def write_int (env : SysfsEnv) (path : String) (value : Int) : Int × Option String :=
  if env.openOk then
    ((if env.writeAmt = -1 then -env.writeErrno else 0), some (toString value ++ "\n"))
  else
    (-env.openErrno, none)

/-- `write_str` (lights.c lines 75-95): same shape as `write_int` but the
buffer is `sprintf(buffer, "%s\n", value)`. -/
def write_str (env : SysfsEnv) (path : String) (value : String) : Int × Option String :=
  if env.openOk then
    ((if env.writeAmt = -1 then -env.writeErrno else 0), some (value ++ "\n"))
  else
    (-env.openErrno, none)

/-- `is_lit` (lights.c lines 97-101): `return state->color & 0x00ffffff;`.
The C `int` result is used as a boolean: lit iff nonzero. -/
def is_lit (state : LightState) : Nat :=
  state.color &&& 0x00ffffff

/-- `rgb_to_brightness` (lights.c lines 103-109): mask the color to its low
24 bits and combine the byte channels with the fixed luma weights. -/
def rgb_to_brightness (state : LightState) : Nat :=
  let color := state.color &&& 0x00ffffff
  (77 * ((color >>> 16) &&& 0x00ff)
    + 150 * ((color >>> 8) &&& 0x00ff) + 29 * (color &&& 0x00ff)) >>> 8

/-- The `brightness_level` computation inside `set_light_locked`
(lights.c lines 143-147): `0` when unlit, else the alpha byte when the top
byte of `color` is nonzero, else `LED_LIGHT_ON`. -/
def indicator_level (state : LightState) : Nat :=
  if is_lit state ≠ 0 then
    (if state.color &&& 0xff000000 ≠ 0 then (state.color &&& 0xff000000) >>> 24
     else LED_LIGHT_ON)
  else LED_LIGHT_OFF

/-- C's `sprintf` `%x` conversion for the values in play (non-negative):
lowercase hexadecimal with no zero padding. -/
def sprintf_hex (n : Nat) : String :=
  String.mk (Nat.toDigits 16 n)

/-- `set_light_locked` (lights.c lines 123-157): resolve `onMS`/`offMS` by
the `switch` on `flashMode` (cases `LIGHT_FLASH_TIMED`/`LIGHT_FLASH_HARDWARE`
take the request's durations; `LIGHT_FLASH_NONE` and `default` force 0),
compute the brightness level, format
`sprintf(blink_pattern, "%x0000 %d %d 1 1", brightness_level, onMS, offMS)`
and write it to `RGB_CONTROL_FILE`.  Returns the C return code paired with
the `blink_pattern` string passed to `write_str`. -/
def set_light_locked (env : SysfsEnv) (state : LightState) : Int × String :=
  let t : Int × Int :=
    match state.flashMode with
    | 1 => (state.flashOnMS, state.flashOffMS)
    | 2 => (state.flashOnMS, state.flashOffMS)
    | _ => (0, 0)
  let brightness_level : Nat := indicator_level state
  let blink_pattern : String :=
    sprintf_hex brightness_level ++ "0000 " ++ toString t.1 ++ " "
      ++ toString t.2 ++ " 1 1"
  ((write_str env RGB_CONTROL_FILE blink_pattern).1, blink_pattern)

/-- `handle_led_prioritized_locked` (lights.c lines 159-167): if the stored
attention request is lit, drive the LED from it; otherwise from the
candidate `state`. -/
def handle_led_prioritized_locked (env : SysfsEnv) (g_attention state : LightState) :
    Int × String :=
  if is_lit g_attention ≠ 0 then
    set_light_locked env g_attention
  else
    set_light_locked env state

/-- `set_light_backlight` (lights.c lines 111-121): compute
`rgb_to_brightness(state)` and write it to `LCD_FILE` under the lock.
Returns the C return code paired with the integer passed to `write_int`. -/
def set_light_backlight (env : SysfsEnv) (state : LightState) : Int × Int :=
  let brightness : Int := rgb_to_brightness state
  ((write_int env LCD_FILE brightness).1, brightness)

/-- `set_light_notifications` (lights.c lines 169-178): under the lock,
resolve against the stored attention request without modifying it.
`g_attention` is the stored attention state on entry; the result is the C
return code, the blink-pattern string written, and the attention state on
exit. -/
def set_light_notifications (env : SysfsEnv) (g_attention state : LightState) :
    Int × String × LightState :=
  let r := handle_led_prioritized_locked env g_attention state
  (r.1, r.2, g_attention)

/-- `set_light_attention` (lights.c lines 180-190): under the lock, first
`g_attention = *state`, then resolve.  Same result shape as
`set_light_notifications`. -/
def set_light_attention (env : SysfsEnv) (g_attention state : LightState) :
    Int × String × LightState :=
  let g_attention2 : LightState := state
  let r := handle_led_prioritized_locked env g_attention2 state
  (r.1, r.2, g_attention2)

/-- The three operations a handle can be bound to by `open_lights`. -/
inductive SetLightFn where
  | backlight
  | notifications
  | attention
  deriving Repr, DecidableEq

/-- `EINVAL` on Linux. -/
def EINVAL : Int := 22

/-- `open_lights` (lights.c lines 211-239): match the requested identifier
against `LIGHT_ID_BACKLIGHT` (`"backlight"`), `LIGHT_ID_NOTIFICATIONS`
(`"notifications"`), `LIGHT_ID_ATTENTION` (`"attention"`) in order; any
other name returns `-EINVAL` before any allocation and without writing the
output handle pointer (modelled by `Except.error`).  On a match, a handle
bound to the corresponding operation is produced and `0` returned
(modelled by `Except.ok` carrying the bound operation). -/
def open_lights (name : String) : Except Int SetLightFn :=
  if name = "backlight" then Except.ok SetLightFn.backlight
  else if name = "notifications" then Except.ok SetLightFn.notifications
  else if name = "attention" then Except.ok SetLightFn.attention
  else Except.error (-EINVAL)

/-- A call into the module: which operation runs and with which request. -/
inductive LightCall where
  | backlight (s : LightState)
  | notifications (s : LightState)
  | attention (s : LightState)
  deriving Repr, DecidableEq

/-- One whole-module step: run a call against the current stored attention
state, returning the C result code and the attention state afterwards.
`set_light_backlight` does not read or write `g_attention` in the source,
so the backlight arm threads it through untouched. -/
def dispatch (env : SysfsEnv) (g_attention : LightState) :
    LightCall → Int × LightState
  | LightCall.backlight s => ((set_light_backlight env s).1, g_attention)
  | LightCall.notifications s =>
      let r := set_light_notifications env g_attention s
      (r.1, r.2.2)
  | LightCall.attention s =>
      let r := set_light_attention env g_attention s
      (r.1, r.2.2)

/-- Modelled from the spec: the blink-pattern grammar as the spec words it,
`"<level in 2-digit hex>0000 <onMs> <offMs> 1 1"`, with the level
zero-padded to exactly two hexadecimal digits. -/
def toBlinkPatternSpec (level : Nat) (onMs offMs : Int) : String :=
  let hi := Nat.digitChar ((level / 16) % 16)
  let lo := Nat.digitChar (level % 16)
  String.mk [hi, lo] ++ "0000 " ++ toString onMs ++ " " ++ toString offMs ++ " 1 1"

/-- An I/O environment in which both `open(2)` and `write(2)` succeed. -/
def envOk : SysfsEnv :=
  { openOk := true, openErrno := 0, writeAmt := 1, writeErrno := 0 }


/-! ### Helper lemmas about the bit-mask arithmetic of the codec -/

theorem and_mask_shiftRight_byte (c k m : Nat) (h : k + 8 ≤ m) :
    ((c &&& (2 ^ m - 1)) >>> k) &&& 0xff = (c >>> k) &&& 0xff := by
  apply Nat.eq_of_testBit_eq
  intro i
  have h255 : (0xff : Nat) = 2 ^ 8 - 1 := rfl
  rw [h255]
  simp only [Nat.testBit_and, Nat.testBit_shiftRight, Nat.testBit_two_pow_sub_one]
  by_cases hi : i < 8
  · have hkm : k + i < m := by omega
    simp [hi, hkm]
  · simp [hi]

theorem and_top_mask_shiftRight (c : Nat) :
    (c &&& 0xff000000) >>> 24 = (c >>> 24) &&& 0xff := by
  apply Nat.eq_of_testBit_eq
  intro i
  have hM : (0xff000000 : Nat) = (2 ^ 8 - 1) <<< 24 := rfl
  have h255 : (0xff : Nat) = 2 ^ 8 - 1 := rfl
  rw [hM, h255]
  simp only [Nat.testBit_and, Nat.testBit_shiftRight, Nat.testBit_shiftLeft,
    Nat.testBit_two_pow_sub_one]
  have h24 : (24 + i) ≥ 24 := by omega
  simp [h24, Nat.add_sub_cancel_left]

theorem top_mask_shiftRight_shiftLeft (c : Nat) :
    ((c &&& 0xff000000) >>> 24) <<< 24 = c &&& 0xff000000 := by
  apply Nat.eq_of_testBit_eq
  intro i
  have hM : (0xff000000 : Nat) = (2 ^ 8 - 1) <<< 24 := rfl
  rw [hM]
  simp only [Nat.testBit_and, Nat.testBit_shiftRight, Nat.testBit_shiftLeft,
    Nat.testBit_two_pow_sub_one]
  by_cases hi : i ≥ 24
  · have hsub : 24 + (i - 24) = i := by omega
    simp [hi, hsub]
  · simp [hi]

theorem top_mask_zero_iff (c : Nat) :
    (c &&& 0xff000000) >>> 24 = 0 ↔ c &&& 0xff000000 = 0 := by
  constructor
  · intro h
    have hrt := top_mask_shiftRight_shiftLeft c
    rw [h] at hrt
    simpa using hrt.symm
  · intro h
    simp [h]

/-- `rgb_to_brightness` written without the source's pre-masking of the
color to 24 bits: each channel byte of the low 24 bits is what the mask
plus shift extracts. -/
theorem rgb_to_brightness_eq (state : LightState) :
    rgb_to_brightness state =
      (77 * ((state.color >>> 16) &&& 0xff) + 150 * ((state.color >>> 8) &&& 0xff)
        + 29 * (state.color &&& 0xff)) >>> 8 := by
  have e : (0x00ffffff : Nat) = 2 ^ 24 - 1 := rfl
  have e0 : (state.color &&& (2 ^ 24 - 1)) &&& 0xff
      = ((state.color &&& (2 ^ 24 - 1)) >>> 0) &&& 0xff := by
    rw [Nat.shiftRight_zero]
  simp only [rgb_to_brightness, e]
  rw [e0, and_mask_shiftRight_byte state.color 16 24 (by omega),
    and_mask_shiftRight_byte state.color 8 24 (by omega),
    and_mask_shiftRight_byte state.color 0 24 (by omega), Nat.shiftRight_zero]

/-- The luma combination is bounded by 255 for every color. -/
theorem rgb_to_brightness_le (state : LightState) : rgb_to_brightness state ≤ 255 := by
  simp only [rgb_to_brightness, Nat.shiftRight_eq_div_pow]
  have h1 : ((state.color &&& 0x00ffffff) / 2 ^ 16) &&& 0x00ff ≤ 0x00ff := Nat.and_le_right
  have h2 : ((state.color &&& 0x00ffffff) / 2 ^ 8) &&& 0x00ff ≤ 0x00ff := Nat.and_le_right
  have h3 : (state.color &&& 0x00ffffff) &&& 0x00ff ≤ 0x00ff := Nat.and_le_right
  have hsum : 77 * (((state.color &&& 0x00ffffff) / 2 ^ 16) &&& 0x00ff)
      + 150 * (((state.color &&& 0x00ffffff) / 2 ^ 8) &&& 0x00ff)
      + 29 * ((state.color &&& 0x00ffffff) &&& 0x00ff) ≤ 65280 := by omega
  calc (77 * (((state.color &&& 0x00ffffff) / 2 ^ 16) &&& 0x00ff)
      + 150 * (((state.color &&& 0x00ffffff) / 2 ^ 8) &&& 0x00ff)
      + 29 * ((state.color &&& 0x00ffffff) &&& 0x00ff)) / 2 ^ 8
      ≤ 65280 / 2 ^ 8 := Nat.div_le_div_right hsum
    _ = 255 := by norm_num

/-! ### Concrete requests used in examples and witnesses -/

/-- Pure red, no flash: the spec's worked example. -/
def redReq : LightState :=
  { color := 0x00FF0000, flashMode := 0, flashOnMS := 0, flashOffMS := 0 }

/-- Attention request with alpha `0x80` and zero RGB: unlit despite a
nonzero top byte. -/
def unlitAttn : LightState :=
  { color := 0x80000000, flashMode := 0, flashOnMS := 0, flashOffMS := 0 }

/-- A lit attention request. -/
def litAttn : LightState :=
  { color := 0x000000FF, flashMode := 0, flashOnMS := 0, flashOffMS := 0 }

/-- A green timed notification request. -/
def notifReq : LightState :=
  { color := 0x0000FF00, flashMode := 1, flashOnMS := 500, flashOffMS := 1000 }

/-- C3: the indicator-LED brightness level is 0 for an unlit request,
otherwise the top byte of `color` when that byte is nonzero and 255
otherwise; the pure-red no-flash example resolves to level 255 and pattern
`"ff0000 0 0 1 1"`. -/
theorem claim_C3_indicator_level (req : LightState) :
    (indicator_level req =
      if is_lit req = 0 then 0
      else if (req.color >>> 24) &&& 0xff ≠ 0 then (req.color >>> 24) &&& 0xff
      else 255)
    ∧ indicator_level redReq = 255
    ∧ (set_light_locked envOk redReq).2 = "ff0000 0 0 1 1" := by
  refine ⟨?_, by decide, by decide⟩
  by_cases h : is_lit req = 0
  · simp [indicator_level, h, LED_LIGHT_OFF]
  · simp only [indicator_level, h, ne_eq, not_false_eq_true, if_true, if_false,
      LED_LIGHT_ON]
    rw [← and_top_mask_shiftRight]
    by_cases h2 : req.color &&& 0xff000000 = 0
    · simp [h2, (top_mask_zero_iff req.color).mpr h2]
    · have h3 : ¬ (req.color &&& 0xff000000) >>> 24 = 0 := fun hz =>
        h2 ((top_mask_zero_iff req.color).mp hz)
      simp [h2, h3]

/-- C4: `set_light_backlight` writes the luma combination
`(77*R + 150*G + 29*B) >> 8` of the low 24 bits of the color; the written
value lies in `[0, 255]` for every color, and the pure-red example writes
76. -/
theorem claim_C4_backlight (env : SysfsEnv) (state : LightState) :
    ((set_light_backlight env state).2 =
      ((77 * ((state.color >>> 16) &&& 0xff) + 150 * ((state.color >>> 8) &&& 0xff)
        + 29 * (state.color &&& 0xff)) >>> 8 : Nat))
    ∧ 0 ≤ (set_light_backlight env state).2
    ∧ (set_light_backlight env state).2 ≤ 255
    ∧ set_light_backlight env redReq = ((write_int env LCD_FILE 76).1, 76) := by
  refine ⟨?_, ?_, ?_, ?_⟩
  · show ((rgb_to_brightness state : Nat) : Int) = _
    rw [rgb_to_brightness_eq]
  · show (0 : Int) ≤ ((rgb_to_brightness state : Nat) : Int)
    exact Int.natCast_nonneg _
  · show ((rgb_to_brightness state : Nat) : Int) ≤ 255
    exact_mod_cast rgb_to_brightness_le state
  · show ((write_int env LCD_FILE ((rgb_to_brightness redReq : Nat) : Int)).1,
        ((rgb_to_brightness redReq : Nat) : Int)) = _
    rw [show rgb_to_brightness redReq = 76 from by decide]
    rfl

/-- C5: `is_lit` is false exactly when the low 24 bits of the color are
zero; the `color = 0x80000000` request is unlit and, stored as the
attention state, does not mask a notification request. -/
theorem claim_C5_is_lit (req : LightState) (env : SysfsEnv) (notif : LightState) :
    (is_lit req = 0 ↔ req.color &&& 0x00ffffff = 0)
    ∧ is_lit unlitAttn = 0
    ∧ set_light_notifications env unlitAttn notif
        = ((set_light_locked env notif).1, (set_light_locked env notif).2, unlitAttn) := by
  refine ⟨Iff.rfl, by decide, ?_⟩
  simp [set_light_notifications, handle_led_prioritized_locked,
    show is_lit unlitAttn = 0 from by decide]

/-- C8: `set_light_notifications` returns the attention state it was given,
for every I/O outcome (including failed writes), and the backlight
operation neither reads nor writes the attention state: both whole-module
steps leave it unchanged. -/
theorem claim_C8_frame (env : SysfsEnv) (g s : LightState) :
    (set_light_notifications env g s).2.2 = g
    ∧ (dispatch env g (LightCall.notifications s)).2 = g
    ∧ (dispatch env g (LightCall.backlight s)).2 = g :=
  ⟨rfl, rfl, rfl⟩

/-- C10: the bytes `set_light_attention` hands to the indicator-LED writer,
its result code, and the attention state it leaves behind are independent
of the attention state held before the call: any two prior states produce
identical outcomes, because the stored state is overwritten with the
request before resolution. -/
theorem claim_C10_attention_independence (env : SysfsEnv) (g1 g2 req : LightState) :
    set_light_attention env g1 req = set_light_attention env g2 req
    ∧ set_light_attention env g1 req
        = ((handle_led_prioritized_locked env req req).1,
           (handle_led_prioritized_locked env req req).2, req) :=
  ⟨rfl, rfl⟩

/-- C1: `set_light_notifications` resolves against the stored attention
state: when it is lit the write (code and pattern) is derived from the
attention state, otherwise from the notification request itself; and after
`set_light_attention` stores an unlit request, the next notification call
drives the LED from its own request. -/
theorem claim_C1_resolution (env : SysfsEnv) (g_attention req a : LightState) :
    (is_lit g_attention ≠ 0 →
      set_light_notifications env g_attention req
        = ((set_light_locked env g_attention).1,
           (set_light_locked env g_attention).2, g_attention))
    ∧ (is_lit g_attention = 0 →
      set_light_notifications env g_attention req
        = ((set_light_locked env req).1, (set_light_locked env req).2, g_attention))
    ∧ (is_lit a = 0 →
      set_light_notifications env (set_light_attention env g_attention a).2.2 req
        = ((set_light_locked env req).1, (set_light_locked env req).2, a)) := by
  refine ⟨fun h => ?_, fun h => ?_, fun h => ?_⟩ <;>
    simp [set_light_notifications, set_light_attention,
      handle_led_prioritized_locked, h]

theorem claim_C1_witness :
    set_light_notifications envOk litAttn notifReq
        = ((set_light_locked envOk litAttn).1, (set_light_locked envOk litAttn).2, litAttn)
    ∧ set_light_notifications envOk unlitAttn notifReq
        = ((set_light_locked envOk notifReq).1, (set_light_locked envOk notifReq).2, unlitAttn)
    ∧ set_light_notifications envOk (set_light_attention envOk litAttn unlitAttn).2.2 notifReq
        = ((set_light_locked envOk notifReq).1, (set_light_locked envOk notifReq).2, unlitAttn) :=
  ⟨(claim_C1_resolution envOk litAttn notifReq unlitAttn).1 (by decide),
   (claim_C1_resolution envOk unlitAttn notifReq unlitAttn).2.1 (by decide),
   (claim_C1_resolution envOk litAttn notifReq unlitAttn).2.2 (by decide)⟩

/-- C2 as stated is false: the source formats the level with `sprintf`'s
`%x`, which does not zero-pad, so a request resolving to level 5 produces
`"50000 0 0 1 1"` and not the two-digit-hex form `"050000 0 0 1 1"`. -/
theorem claim_C2_counterexample :
    (set_light_locked envOk
        { color := 0x05000001, flashMode := 0, flashOnMS := 0, flashOffMS := 0 }).2
      = "50000 0 0 1 1"
    ∧ (set_light_locked envOk
        { color := 0x05000001, flashMode := 0, flashOnMS := 0, flashOffMS := 0 }).2
      ≠ toBlinkPatternSpec
          (indicator_level
            { color := 0x05000001, flashMode := 0, flashOnMS := 0, flashOffMS := 0 }) 0 0 := by
  constructor <;> decide

/-- C2 (amended): the string handed to the indicator-LED writer is exactly
`"<level in unpadded lowercase hex>0000 <onMs> <offMs> 1 1"` (the writer
then appends a newline); `onMs`/`offMs` are the request's durations when
`flashMode` is `LIGHT_FLASH_TIMED` or `LIGHT_FLASH_HARDWARE`, and both are
0 when `flashMode` is `LIGHT_FLASH_NONE` or any unrecognized value. -/
theorem claim_C2_blink_pattern (env : SysfsEnv) (state : LightState) :
    (set_light_locked env state).2 =
      sprintf_hex (indicator_level state) ++ "0000 "
        ++ toString (if state.flashMode = LIGHT_FLASH_TIMED
              ∨ state.flashMode = LIGHT_FLASH_HARDWARE then state.flashOnMS else 0)
        ++ " "
        ++ toString (if state.flashMode = LIGHT_FLASH_TIMED
              ∨ state.flashMode = LIGHT_FLASH_HARDWARE then state.flashOffMS else 0)
        ++ " 1 1" := by
  simp only [set_light_locked, LIGHT_FLASH_TIMED, LIGHT_FLASH_HARDWARE]
  split
  · rename_i h
    simp [h]
  · rename_i h
    simp [h]
  · rename_i h1 h2
    have hn : ¬ (state.flashMode = 1 ∨ state.flashMode = 2) := by
      rintro (h | h)
      · exact h1 h
      · exact h2 h
    simp [hn]

/-- C6: `open_lights` succeeds, binding the matching operation, exactly for
the three recognized identifiers; every other identifier fails with the
negative invalid-argument code `-EINVAL` and no handle is produced. -/
theorem claim_C6_open (name : String) :
    open_lights "backlight" = Except.ok SetLightFn.backlight
    ∧ open_lights "notifications" = Except.ok SetLightFn.notifications
    ∧ open_lights "attention" = Except.ok SetLightFn.attention
    ∧ (name ≠ "backlight" → name ≠ "notifications" → name ≠ "attention" →
        open_lights name = Except.error (-EINVAL))
    ∧ -EINVAL < (0 : Int) := by
  refine ⟨rfl, rfl, rfl, fun h1 h2 h3 => ?_, by decide⟩
  simp [open_lights, h1, h2, h3]

theorem claim_C6_witness :
    open_lights "bogus" = Except.error (-EINVAL) :=
  (claim_C6_open "bogus").2.2.2.1 (by decide) (by decide) (by decide)

/-- The result code of `set_light_locked` is exactly the result code of the
`write_str` call on the pattern it formats. -/
theorem set_light_locked_fst (env : SysfsEnv) (state : LightState) :
    (set_light_locked env state).1
      = (write_str env RGB_CONTROL_FILE (set_light_locked env state).2).1 := rfl

/-- C7: `write_int`/`write_str` return 0 on success and `-errno` when the
open or the write fails; a short write the `write(2)` call does not report
as failure is success; and each operation's return value is exactly the
result of its single underlying sysfs write. -/
theorem claim_C7_errors (env : SysfsEnv) (path s : String) (v : Int)
    (g req : LightState) :
    (env.openOk = false →
      (write_int env path v).1 = -env.openErrno
      ∧ (write_str env path s).1 = -env.openErrno)
    ∧ (env.openOk = true → env.writeAmt = -1 →
      (write_int env path v).1 = -env.writeErrno
      ∧ (write_str env path s).1 = -env.writeErrno)
    ∧ (env.openOk = true → env.writeAmt ≠ -1 →
      (write_int env path v).1 = 0 ∧ (write_str env path s).1 = 0)
    ∧ (set_light_backlight env req).1
        = (write_int env LCD_FILE (rgb_to_brightness req)).1
    ∧ (set_light_notifications env g req).1
        = (write_str env RGB_CONTROL_FILE (set_light_notifications env g req).2.1).1
    ∧ (set_light_attention env g req).1
        = (write_str env RGB_CONTROL_FILE (set_light_attention env g req).2.1).1 := by
  refine ⟨fun h => ?_, fun h hw => ?_, fun h hw => ?_, rfl, ?_, ?_⟩
  · simp [write_int, write_str, h]
  · simp [write_int, write_str, h, hw]
  · simp [write_int, write_str, h, hw]
  · by_cases hlit : is_lit g ≠ 0 <;>
      simp [set_light_notifications, handle_led_prioritized_locked, hlit,
        set_light_locked_fst]
  · by_cases hlit : is_lit req ≠ 0 <;>
      simp [set_light_attention, handle_led_prioritized_locked, hlit,
        set_light_locked_fst]

/-- An I/O environment whose `open(2)` fails with `errno = 13`. -/
def envFailOpen : SysfsEnv :=
  { openOk := false, openErrno := 13, writeAmt := 0, writeErrno := 0 }

/-- An I/O environment whose `open(2)` succeeds and whose `write(2)` fails
with `errno = 5`. -/
def envFailWrite : SysfsEnv :=
  { openOk := true, openErrno := 0, writeAmt := -1, writeErrno := 5 }

theorem claim_C7_witness :
    (write_int envFailOpen "p" 3).1 = -13
    ∧ (write_str envFailWrite "p" "x").1 = -5
    ∧ (write_int envOk "p" 3).1 = 0 :=
  ⟨((claim_C7_errors envFailOpen "p" "x" 3 litAttn litAttn).1 rfl).1,
   ((claim_C7_errors envFailWrite "p" "x" 3 litAttn litAttn).2.1 rfl rfl).2,
   ((claim_C7_errors envOk "p" "x" 3 litAttn litAttn).2.2.1 rfl (by decide)).1⟩
